import Mathlib

/-!
Shallow embedding of pynpoint/readwrite/near.py (NearInitializationModule):
the NEAR/VISIR burst reader that demultiplexes multi-frame exposure files
into four output streams keyed by the (nod, chop) pair, together with its
static / non-static / extra attribute bookkeeping.

Machine conventions: FITS pixel data is modelled with integer pixel values
(the claims only depend on a pixel being zero or nonzero), header cards and
database attribute values by a small sum of strings and integers, warnings
by an explicit list of structured records, and fallible code by Except.
-/

namespace Near

/-- A header card value or database attribute value: in the fragment of the
FITS format this module touches, values are strings or integers. -/
inductive AVal where
  | s (v : String)
  | n (v : Int)
deriving DecidableEq, Repr

/-- An astropy header: an ordered list of (keyword, value) cards.
Indexing a header returns the value of the first card with that keyword. -/
abbrev Header := List (String × AVal)

/-- Header lookup, the meaning of the source's header[key]. -/
def hfind (h : Header) (k : String) : Option AVal :=
  (h.find? (fun p => p.1 == k)).map (fun p => p.2)

/-- Key membership, the meaning of the source's (key in header). -/
def hmem (h : Header) (k : String) : Bool :=
  (hfind h k).isSome

/-- astropy Header.update(other): every card of other whose keyword already
occurs in the header overwrites the value in place, new keywords are
appended at the end (open_fit: header.update(head_small)). -/
def headerUpdate (h : Header) (upd : Header) : Header :=
  upd.foldl
    (fun acc kv =>
      if acc.any (fun p => p.1 == kv.1) then
        acc.map (fun p => if p.1 == kv.1 then (p.1, kv.2) else p)
      else acc ++ [kv])
    h

/-- A 2D image plane, row major. -/
abbrev Image := List (List Int)

/-- One data HDU of an exposure file: the small per-frame header plus a
single 2D image plane. -/
structure RawFrame where
  header : Header
  data : Image
deriving DecidableEq, Repr

/-- One exposure file: its name, the file-level (primary) header
(hdulist[0].header) and the nimages data HDUs hdulist[1..nimages].  The
trailing averaged frame of the container is excluded here, matching the
source's nimages = len(hdulist) - 2, which never reads that trailing HDU. -/
structure FitsFile where
  name : String
  head : Header
  frames : List RawFrame
deriving DecidableEq, Repr

/-- The structured warnings the module can emit. -/
inductive Warning where
  | nodposMissing (scheme : String)
  | chopDisabled
  | cycSkipped (n : Int)
  | cycSummed
  | chopTagUnknown (i : Nat)
  | chopCountMismatch
  | staticChanged (fitskey : String) (file : String)
  | staticMissing (item : String) (fitskey : String)
  | emptyTag (tag : String)
  | nodNotAB
deriving DecidableEq, Repr

/-- Fallback nod inference (open_fit, KeyError branch): scheme ABBA maps the
file's sequence index mod 4 positions 0 and 3 to A and 1 and 2 to B; the
remaining branch is scheme ABAB, even index to A and odd to B.  run only
reaches this point after _initialize has validated the scheme as one of the
two literals; for any other scheme the source would leave nod unbound. -/
def nodFallback (scheme : String) (number : Nat) : String :=
  if scheme = "ABBA" then
    if number % 4 = 0 ∨ number % 4 = 3 then "A" else "B"
  else
    if number % 2 = 0 then "A" else "B"

/-- The header keyword holding the nod position. -/
def nodposKey : String :=
  "ESO SEQ NODPOS"

/-- Nod determination of open_fit: read the card named by the string
constant for the nod position; on a KeyError warn (only when processing the
first file, number = 0) and fall back to positional inference. -/
def nodOf (header : Header) (scheme : String) (number : Nat) :
    String × List Warning :=
  match hfind header nodposKey with
  | some (AVal.s v) => (v, [])
  | some (AVal.n v) => (toString v, [])
  | none =>
      (nodFallback scheme number,
        if number = 0 then [Warning.nodposMissing scheme] else [])

/-- check_header: warn when chopping is reported disabled, when chop cycles
were skipped, and when frames were pre-averaged.  The source indexes the
header directly (so a file missing one of these cards would raise); a
missing card is modelled as producing no warning, and no claim concerns
files missing them. -/
def checkHeader (head : Header) : List Warning :=
  (match hfind head "ESO DET CHOP ST" with
   | some (AVal.s v) => if v = "F" then [Warning.chopDisabled] else []
   | _ => []) ++
  (match hfind head "ESO DET CHOP CYCSKIP" with
   | some (AVal.n k) => if k ≠ 0 then [Warning.cycSkipped k] else []
   | _ => []) ++
  (match hfind head "ESO DET CHOP CYCSUM" with
   | some (AVal.s v) => if v = "T" then [Warning.cycSummed] else []
   | _ => [])

/-- The header keyword holding the per-frame chop half-cycle tag. -/
def framTypeKey : String :=
  "HIERARCH ESO DET FRAM TYPE"

/-- The per-frame chop tag: the card HIERARCH ESO DET FRAM TYPE of the
frame's small header. -/
def framType (fr : RawFrame) : Option AVal :=
  hfind fr.header framTypeKey

/-- The classification loop of open_fit, started at frame index i: a frame
tagged HCYCLE1 is written at the chop-A buffer's running write position, a
frame tagged HCYCLE2 at chop-B's, any other tag warns with the frame index
and the frame is written nowhere.  Returns the written frames of each
buffer in write order, plus the warnings. -/
def classifyFrames : Nat → List RawFrame → List Image × List Image × List Warning
  | _, [] => ([], [], [])
  | i, fr :: rest =>
      let r := classifyFrames (i + 1) rest
      if framType fr = some (AVal.s "HCYCLE1") then
        (fr.data :: r.1, r.2.1, r.2.2)
      else if framType fr = some (AVal.s "HCYCLE2") then
        (r.1, fr.data :: r.2.1, r.2.2)
      else
        (r.1, r.2.1, Warning.chopTagUnknown i :: r.2.2)

/-- An all-zero image of the given height and width: the state of a chop
buffer slot that the classification loop never wrote (np.zeros). -/
def zeroImage (h w : Nat) : Image :=
  List.replicate h (List.replicate w 0)

/-- Pixel (0,0) of an image, the value the trim step tests. -/
def pix00 (img : Image) : Int :=
  (img.headD []).headD 0

/-- The trim step of open_fit, chopa = chopa[chopa[:, 0, 0] != 0]: keep
exactly the buffer slots whose pixel (0,0) is nonzero. -/
def trimChop (buf : List Image) : List Image :=
  buf.filter (fun img => pix00 img != 0)

/-- Result of open_fit: trimmed chop stacks, nod tag, composite header,
total frame count of the file, and the warnings emitted while opening. -/
structure OpenFitResult where
  chopa : List Image
  chopb : List Image
  nod : String
  header : Header
  nimages : Nat
  warns : List Warning
deriving Repr

/-- open_fit: build the composite header (file-level header overlaid with
the first frame's header, then the NAXIS cards inserted in source order),
determine the nod, check the auxiliary header conditions, classify the
frames into the two preallocated zero buffers, and trim each buffer by the
nonzero pixel (0,0) test.  The auxiliary per-file header dump port is not
modelled; no claim concerns it. -/
def openFit (scheme : String) (f : FitsFile) (number : Nat) : OpenFitResult :=
  let nimages := f.frames.length
  let fr1 := f.frames.headD { header := [], data := [] }
  let headSmall := fr1.header
  let h0 := headerUpdate f.head headSmall
  let naxis1 := (hfind headSmall "NAXIS1").getD (AVal.n 0)
  let naxis2 := (hfind headSmall "NAXIS2").getD (AVal.n 0)
  let header :=
    ((((h0.insertIdx 3 ("NAXIS", AVal.n 3)).insertIdx 4
        ("NAXIS1", naxis1)).insertIdx 4
        ("NAXIS2", naxis2)).insertIdx 5
        ("NAXIS3", AVal.n (nimages : Int)))
  let nodw := nodOf header scheme number
  let w2 := checkHeader header
  let hgt := fr1.data.length
  let wid := (fr1.data.headD []).length
  let cw := classifyFrames 0 f.frames
  let chopaBuf := cw.1 ++ List.replicate (nimages - cw.1.length) (zeroImage hgt wid)
  let chopbBuf := cw.2.1 ++ List.replicate (nimages - cw.2.1.length) (zeroImage hgt wid)
  let chopa := trimChop chopaBuf
  let chopb := trimChop chopbBuf
  let w4 := if chopa.length ≠ chopb.length then [Warning.chopCountMismatch] else []
  { chopa := chopa, chopb := chopb, nod := nodw.1, header := header,
    nimages := nimages, warns := nodw.2 ++ w2 ++ cw.2.2 ++ w4 }

/-- A Python value held by a configuration flag; _initialize rejects the
non-boolean ones. -/
inductive PyVal where
  | bool (b : Bool)
  | str (v : String)
  | int (n : Int)
deriving DecidableEq, Repr

/-- Whether the flag is a genuine Python bool (isinstance(x, bool)). -/
def PyVal.isBool : PyVal → Bool
  | PyVal.bool _ => true
  | _ => false

/-- Python truthiness, the meaning of (if self.m_check:); after validation
the flags are genuine booleans. -/
def PyVal.truthy : PyVal → Bool
  | PyVal.bool b => b
  | PyVal.str v => v != ""
  | PyVal.int n => n != 0

/-- One output port of the central database, as this module observes it:
its tag, the appended 3D stacks in order, the static attributes, the append
log of append_attribute_data (non-static arrays, INDEX, FILES), a flush
counter, and the history / closed finalization state. -/
structure Port where
  tag : String
  stacked : List (List Image)
  statics : List (String × AVal)
  appends : List (String × AVal)
  flushes : Nat
  history : List (String × String)
  closed : Bool
deriving DecidableEq, Repr

/-- port.append(stack, data_dim=3): append one 3D block. -/
def Port.push (p : Port) (stack : List Image) : Port :=
  { p with stacked := p.stacked ++ [stack] }

/-- port.append_attribute_data(name, value): append one value to the named
non-static array; the log keeps the (name, value) pairs in append order. -/
def Port.appendAttr (p : Port) (k : String) (v : AVal) : Port :=
  { p with appends := p.appends ++ [(k, v)] }

/-- Set or create a static attribute value. -/
def Port.setStatic (p : Port) (k : String) (v : AVal) : Port :=
  if p.statics.any (fun q => q.1 == k) then
    { p with statics := p.statics.map (fun q => if q.1 == k then (k, v) else q) }
  else
    { p with statics := p.statics ++ [(k, v)] }

/-- The recorded static attribute value, if any. -/
def Port.getStatic (p : Port) (k : String) : Option AVal :=
  (p.statics.find? (fun q => q.1 == k)).map (fun q => q.2)

/-- Whether the port's dataset exists: frames have been appended since the
last clearing.  Attribute access on a port without data raises KeyError. -/
def Port.hasData (p : Port) : Bool :=
  !p.stacked.isEmpty

/-- port.flush(). -/
def Port.flush (p : Port) : Port :=
  { p with flushes := p.flushes + 1 }

/-- port.del_all_data(). -/
def Port.delAllData (p : Port) : Port :=
  { p with stacked := [] }

/-- port.del_all_attributes(). -/
def Port.delAllAttributes (p : Port) : Port :=
  { p with statics := [], appends := [] }

/-- port.add_history(module, information). -/
def Port.addHistory (p : Port) (m : String) (info : String) : Port :=
  { p with history := p.history ++ [(m, info)] }

/-- port.close_port(). -/
def Port.closePort (p : Port) : Port :=
  { p with closed := true }

/-- Modelled from the spec: check_static_attribute lives in the output-port
class of pynpoint/core/dataio.py, which is not part of the source here.
Per the recordStatic rules of the spec (section 4.3): when the stream has
no recorded value for the name, the attribute is created (status 1); when
the recorded value equals the presented one, nothing changes (status 0);
when it differs, the value is overwritten, counting as an update, and
status -1 tells the caller to emit the warning.  When the stream holds no
data yet (it received no frames of its nod), the attribute access raises
KeyError, modelled as none. -/
def Port.checkStaticAttribute (p : Port) (k : String) (v : AVal) :
    Option (Int × Port) :=
  if p.hasData then
    match p.getStatic k with
    | none => some (1, p.setStatic k v)
    | some v0 => if v0 = v then some (0, p) else some (-1, p.setStatic k v)
  else none

/-- Modelled from the spec: add_attribute(name, value, static=True) of the
output port (pynpoint/core/dataio.py, not part of the source here) records
the value as the stream's static attribute, creating or overwriting it. -/
def Port.addStaticAttribute (p : Port) (k : String) (v : AVal) : Port :=
  p.setStatic k v

/-- The four output ports, one per (nod, chop) pair: p1 = nod A chop A,
p2 = nod A chop B, p3 = nod B chop A, p4 = nod B chop B. -/
structure Ports where
  p1 : Port
  p2 : Port
  p3 : Port
  p4 : Port
deriving DecidableEq, Repr

/-- The module's construction-time configuration plus the two external
lookup tables it consumes: the central configuration port (attribute name
to FITS keyword, with the string None as the not-applicable sentinel, and
the PIXSCALE constant) and the get_attributes() table of
pynpoint/core/attributes.py (not part of the source here), which yields
the static and non-static attribute name lists and each name's config
source; both tables are inputs of the embedding.  location is the input
directory with its trailing separator (os.path.join(m_im_dir, Empty)). -/
structure ModuleConfig where
  tag1 : String
  tag2 : String
  tag3 : String
  tag4 : String
  scheme : String
  check : PyVal
  overwrite : PyVal
  location : String
  mStatic : List String
  mNonStatic : List String
  configKey : String → String
  attrFromHeader : String → Bool
  pixscale : AVal

/-- The module state threaded through a run: the four ports, the global
frame counter m_count, the warnings emitted so far, and the trace of file
names already processed by the run loop. -/
structure MState where
  ports : Ports
  count : Nat
  warns : List Warning
  processed : List String
deriving DecidableEq, Repr

/-- Running state of the _static_attributes loop over one file: the four
ports, the Python status local (none while still unbound), the four
once-per-stream flags a, b, c, d, and the warnings emitted so far. -/
structure StaticLoop where
  ports : Ports
  status : Option Int
  fa : Bool
  fb : Bool
  fc : Bool
  fd : Bool
  warns : List Warning

/-- One try block of _static_attributes: run check_static_attribute on one
port; on a KeyError (the port holds no data) warn about the empty output
tag, but only when this is the last file (iteration = e) and the port's
once flag is still unset, and leave the status local unchanged. -/
def staticTry (item : String) (v : AVal) (iteration : Nat) (e : Nat)
    (p : Port) (status : Option Int) (flag : Bool) (warns : List Warning) :
    Port × Option Int × Bool × List Warning :=
  match p.checkStaticAttribute item v with
  | some r => (r.2, some r.1, flag, warns)
  | none =>
      if iteration = e && !flag then
        (p, status, true, warns ++ [Warning.emptyTag p.tag])
      else
        (p, status, flag, warns)

/-- One iteration of the _static_attributes item loop: skipped entirely
unless the check flag is truthy; the configured keyword None is the
not-applicable sentinel; a keyword absent from the composite header warns
unconditionally; otherwise the four try blocks run in port order and the
final status decides between create (1, add to all four ports), warn about
the changed value (-1; the source then emits the mismatch warning, whose
message also interpolates self.output.tag, an attribute resolved by the
framework base class outside this source), and no-op (0).  Reading status
when every check raised KeyError before it was ever bound is the source's
UnboundLocalError, modelled as the error result. -/
def staticItem (cfg : ModuleConfig) (header : Header) (fitsFile : String)
    (iteration : Nat) (e : Nat) (st : StaticLoop) (item : String) :
    Except String StaticLoop :=
  if cfg.check.truthy then
    let fitskey := cfg.configKey item
    if fitskey != "None" then
      match hfind header fitskey with
      | some v =>
          let r1 := staticTry item v iteration e st.ports.p1 st.status st.fa st.warns
          let r2 := staticTry item v iteration e st.ports.p2 r1.2.1 st.fb r1.2.2.2
          let r3 := staticTry item v iteration e st.ports.p3 r2.2.1 st.fc r2.2.2.2
          let r4 := staticTry item v iteration e st.ports.p4 r3.2.1 st.fd r3.2.2.2
          match r4.2.1 with
          | none => Except.error ("UnboundLocalError: status")
          | some s =>
              let ps : Ports :=
                if s = 1 then
                  { p1 := r1.1.addStaticAttribute item v,
                    p2 := r2.1.addStaticAttribute item v,
                    p3 := r3.1.addStaticAttribute item v,
                    p4 := r4.1.addStaticAttribute item v }
                else
                  { p1 := r1.1, p2 := r2.1, p3 := r3.1, p4 := r4.1 }
              let w5 :=
                if s = -1 then r4.2.2.2 ++ [Warning.staticChanged fitskey fitsFile]
                else r4.2.2.2
              Except.ok { ports := ps, status := some s,
                          fa := r1.2.2.1, fb := r2.2.2.1, fc := r3.2.2.1,
                          fd := r4.2.2.1, warns := w5 }
      | none =>
          Except.ok
            { st with warns := st.warns ++ [Warning.staticMissing item fitskey] }
    else
      Except.ok st
  else
    Except.ok st

/-- The item loop of _static_attributes over an explicit item list. -/
def staticFold (cfg : ModuleConfig) (header : Header) (fitsFile : String)
    (iteration : Nat) (e : Nat) (st : StaticLoop) :
    List String → Except String StaticLoop
  | [] => Except.ok st
  | item :: rest =>
      match staticItem cfg header fitsFile iteration e st item with
      | Except.error msg => Except.error msg
      | Except.ok st1 => staticFold cfg header fitsFile iteration e st1 rest

/-- _static_attributes: iterate the configured static attribute names with
the Python locals status (initially unbound) and the once-per-stream flags
a, b, c, d (initially 0), as staticItem describes. -/
def staticAttributes (cfg : ModuleConfig) (header : Header) (fitsFile : String)
    (iteration : Nat) (e : Nat) (ports : Ports) :
    Except String (Ports × List Warning) :=
  let st0 : StaticLoop :=
    { ports := ports, status := none,
      fa := false, fb := false, fc := false, fd := false, warns := [] }
  match staticFold cfg header fitsFile iteration e st0 cfg.mStatic with
  | Except.error msg => Except.error msg
  | Except.ok stf => Except.ok (stf.ports, stf.warns)

/-- Append one (name, value) pair to the append log of all four ports. -/
def appendAll (ps : Ports) (k : String) (v : AVal) : Ports :=
  { p1 := ps.p1.appendAttr k v, p2 := ps.p2.appendAttr k v,
    p3 := ps.p3.appendAttr k v, p4 := ps.p4.appendAttr k v }

/-- One iteration of the _non_static_attributes item loop: skipped entirely
unless the check flag is truthy; when the attribute name itself is a card
of the composite header, its value is appended to all four ports; else,
when the attribute is configured as header sourced, the configured FITS
keyword is looked up and, unless it is the None sentinel or absent from the
header, that card's value is appended to all four ports. -/
def nonStaticItem (cfg : ModuleConfig) (header : Header) (ps : Ports)
    (item : String) : Ports :=
  if cfg.check.truthy then
    match hfind header item with
    | some v => appendAll ps item v
    | none =>
        if cfg.attrFromHeader item then
          let fitskey := cfg.configKey item
          if fitskey != "None" then
            match hfind header fitskey with
            | some v => appendAll ps item v
            | none => ps
          else ps
        else ps
  else ps

/-- The item loop of _non_static_attributes over an explicit item list. -/
def nonStaticFold (cfg : ModuleConfig) (header : Header) (ps : Ports) :
    List String → Ports
  | [] => ps
  | item :: rest => nonStaticFold cfg header (nonStaticItem cfg header ps item) rest

/-- _non_static_attributes: iterate the configured non-static attribute
names, as nonStaticItem describes. -/
def nonStaticAttributes (cfg : ModuleConfig) (header : Header) (ps : Ports) :
    Ports :=
  nonStaticFold cfg header ps cfg.mNonStatic

/-- _extra_attributes: append one INDEX entry per frame of the file, with
values m_count, m_count + 1, ..., to the two ports of the file's nod;
append the source path (location + fits_file) once to each of those two
ports and record PIXSCALE on them as a static attribute; a nod that is
neither A nor B warns and touches no port.  In every case the global frame
counter then advances by nimages, the file's full frame count (the first
axis of the stacked shape). -/
def extraAttributes (cfg : ModuleConfig) (fitsFile : String) (nimages : Nat)
    (nod : String) (ps : Ports) (count : Nat) :
    Ports × Nat × List Warning :=
  let idx := (List.range nimages).map (fun j => (count : Int) + (j : Int))
  let ps1 :=
    idx.foldl
      (fun acc j =>
        if nod = "A" then
          { acc with p1 := acc.p1.appendAttr "INDEX" (AVal.n j),
                     p2 := acc.p2.appendAttr "INDEX" (AVal.n j) }
        else if nod = "B" then
          { acc with p3 := acc.p3.appendAttr "INDEX" (AVal.n j),
                     p4 := acc.p4.appendAttr "INDEX" (AVal.n j) }
        else acc)
      ps
  if nod = "A" then
    let ps2 :=
      { ps1 with
          p1 := ((ps1.p1.appendAttr "FILES"
                    (AVal.s (cfg.location ++ fitsFile))).addStaticAttribute
                  "PIXSCALE" cfg.pixscale),
          p2 := ((ps1.p2.appendAttr "FILES"
                    (AVal.s (cfg.location ++ fitsFile))).addStaticAttribute
                  "PIXSCALE" cfg.pixscale) }
    (ps2, count + nimages, [])
  else if nod = "B" then
    let ps2 :=
      { ps1 with
          p3 := ((ps1.p3.appendAttr "FILES"
                    (AVal.s (cfg.location ++ fitsFile))).addStaticAttribute
                  "PIXSCALE" cfg.pixscale),
          p4 := ((ps1.p4.appendAttr "FILES"
                    (AVal.s (cfg.location ++ fitsFile))).addStaticAttribute
                  "PIXSCALE" cfg.pixscale) }
    (ps2, count + nimages, [])
  else
    (ps1, count + nimages, [Warning.nodNotAB])

/-- The frame-routing step of the run loop: the chop-A and chop-B stacks
of a nod-A file are appended to ports 1 and 2, those of a nod-B file to
ports 3 and 4; any other nod appends to no port. -/
def routeFrames (ps : Ports) (r : OpenFitResult) : Ports :=
  let ports1 :=
    if r.nod = "A" then
      { ps with p1 := ps.p1.push r.chopa, p2 := ps.p2.push r.chopb }
    else ps
  if r.nod = "B" then
    { ports1 with p3 := ports1.p3.push r.chopa, p4 := ports1.p4.push r.chopb }
  else ports1

/-- The flush step of the run loop: only the ports of the file's nod,
which received new data, are flushed. -/
def flushPorts (ps : Ports) (nod : String) : Ports :=
  let ports1 :=
    if nod = "A" then { ps with p1 := ps.p1.flush, p2 := ps.p2.flush }
    else ps
  if nod = "B" then
    { ports1 with p3 := ports1.p3.flush, p4 := ports1.p4.flush }
  else ports1

/-- One iteration of the run loop, for the file f at sequence index i in a
run of total files: open and classify the file, append the chop stacks to
the two ports of its nod, collect the static, non-static and extra
attributes, and flush exactly the ports of the file's nod. -/
def processFile (cfg : ModuleConfig) (total : Nat) (st : MState) (i : Nat)
    (f : FitsFile) : Except String MState :=
  let r := openFit cfg.scheme f i
  let ports2 := routeFrames st.ports r
  match staticAttributes cfg r.header f.name i (total - 1) ports2 with
  | Except.error msg => Except.error msg
  | Except.ok sres =>
      let ports3 := nonStaticAttributes cfg r.header sres.1
      let ext := extraAttributes cfg f.name r.nimages r.nod ports3 st.count
      Except.ok
        { ports := flushPorts ext.1 r.nod, count := ext.2.1,
          warns := st.warns ++ r.warns ++ sres.2 ++ ext.2.2,
          processed := st.processed ++ [f.name] }

/-- The enumerated run loop over the sorted file list, starting at
sequence index i. -/
def processFiles (cfg : ModuleConfig) (total : Nat) :
    Nat → MState → List FitsFile → Except String MState
  | _, st, [] => Except.ok st
  | i, st, f :: rest =>
      match processFile cfg total st i f with
      | Except.error msg => Except.error msg
      | Except.ok st1 => processFiles cfg total (i + 1) st1 rest

/-- The duplicate test of _initialize: walking the tag list with a seen
set, the run aborts on the first tag seen twice. -/
def dupTags : List String → Bool
  | [] => false
  | t :: rest => rest.contains t || dupTags rest

/-- _initialize: validate the four tags pairwise distinct, the scheme
literal, and that both flags are genuine booleans; then clear the data and
attributes of every port.  The source guards each clearing only with
(port is not None), which always holds since the constructor creates all
four ports; the overwrite flag is validated but never consulted, so the
clearing is unconditional. -/
def initializePorts (cfg : ModuleConfig) (ps : Ports) : Except String Ports :=
  if dupTags [cfg.tag1, cfg.tag2, cfg.tag3, cfg.tag4] then
    Except.error ("Output ports should have different tags")
  else if cfg.scheme != "ABBA" && cfg.scheme != "ABAB" then
    Except.error ("Scheme keyword should be set to ABBA or ABAB")
  else if !cfg.check.isBool then
    Except.error ("Check port should be set to True or False")
  else if !cfg.overwrite.isBool then
    Except.error ("Overwrite port should be set to True or False")
  else
    Except.ok
      { p1 := ps.p1.delAllData.delAllAttributes,
        p2 := ps.p2.delAllData.delAllAttributes,
        p3 := ps.p3.delAllData.delAllAttributes,
        p4 := ps.p4.delAllData.delAllAttributes }

/-- Insertion step of the lexicographic sort of the file list. -/
def insertByName (f : FitsFile) : List FitsFile → List FitsFile
  | [] => [f]
  | g :: rest =>
      if f.name ≤ g.name then f :: g :: rest else g :: insertByName f rest

/-- files.sort(): sort the file list lexicographically by name. -/
def sortFiles : List FitsFile → List FitsFile
  | [] => []
  | f :: rest => insertByName f (sortFiles rest)

/-- The run-end finalization: attach the provenance history naming each
port's (nod, chop) pair, then close each port. -/
def finalizePorts (ps : Ports) : Ports :=
  { p1 := (ps.p1.addHistory "NearInitializationModule" "Nod A, Chop A").closePort,
    p2 := (ps.p2.addHistory "NearInitializationModule" "Nod A, Chop B").closePort,
    p3 := (ps.p3.addHistory "NearInitializationModule" "Nod B, Chop A").closePort,
    p4 := (ps.p4.addHistory "NearInitializationModule" "Nod B, Chop B").closePort }

/-- run: validate and clear the ports via _initialize, take the directory
listing, keep the names ending in .fits, sort them, abort when none
remain (the assert), process each file in order, and finally attach the
provenance history and close the four ports.  The decompression pre-pass
only rewrites compressed siblings on disk before the listing and is not
modelled; dirFiles is the resulting directory content. -/
def run (cfg : ModuleConfig) (dirFiles : List FitsFile) (st : MState) :
    Except String MState :=
  match initializePorts cfg st.ports with
  | Except.error msg => Except.error msg
  | Except.ok ports0 =>
      let files := sortFiles (dirFiles.filter (fun f => f.name.endsWith ".fits"))
      if files.isEmpty then
        Except.error ("No FITS files found in the input directory")
      else
        match processFiles cfg files.length 0 { st with ports := ports0 } files with
        | Except.error msg => Except.error msg
        | Except.ok stf => Except.ok { stf with ports := finalizePorts stf.ports }

/-! Helper lemmas about the classification and trim steps. -/

theorem pix00_zeroImage (h w : Nat) : pix00 (zeroImage h w) = 0 := by
  cases h with
  | zero => simp [pix00, zeroImage]
  | succ h1 =>
      cases w with
      | zero => simp [pix00, zeroImage, List.replicate_succ]
      | succ w1 => simp [pix00, zeroImage, List.replicate_succ]

theorem trimChop_append_zeroes (l : List Image) (k h w : Nat) :
    trimChop (l ++ List.replicate k (zeroImage h w)) = trimChop l := by
  unfold trimChop
  rw [List.filter_append]
  have hz : (List.replicate k (zeroImage h w)).filter (fun img => pix00 img != 0)
      = [] := by
    induction k with
    | zero => rfl
    | succ k1 ih =>
        simp [List.replicate_succ, List.filter_cons, pix00_zeroImage, ih]
  rw [hz, List.append_nil]

theorem classifyFrames_eq_filter (i : Nat) (frames : List RawFrame) :
    (classifyFrames i frames).1
      = (frames.filter
          (fun fr => decide (framType fr = some (AVal.s "HCYCLE1")))).map
          RawFrame.data
    ∧ (classifyFrames i frames).2.1
      = (frames.filter
          (fun fr => decide (framType fr = some (AVal.s "HCYCLE2")))).map
          RawFrame.data := by
  induction frames generalizing i with
  | nil => exact ⟨rfl, rfl⟩
  | cons fr rest ih =>
      obtain ⟨ih1, ih2⟩ := ih (i + 1)
      by_cases h1 : framType fr = some (AVal.s "HCYCLE1")
      · have h2 : ¬framType fr = some (AVal.s "HCYCLE2") := by
          rw [h1]; intro hc; exact absurd hc (by decide)
        constructor
        · simp [classifyFrames, h1, List.filter_cons, ih1]
        · simp [classifyFrames, h1, h2, List.filter_cons, ih2]
      · by_cases h2 : framType fr = some (AVal.s "HCYCLE2")
        · constructor
          · simp [classifyFrames, h1, h2, List.filter_cons, ih1]
          · simp [classifyFrames, h1, h2, List.filter_cons, ih2]
        · constructor
          · simp [classifyFrames, h1, h2, List.filter_cons, ih1]
          · simp [classifyFrames, h1, h2, List.filter_cons, ih2]

theorem openFit_chopa (scheme : String) (f : FitsFile) (number : Nat) :
    (openFit scheme f number).chopa = trimChop (classifyFrames 0 f.frames).1 := by
  show trimChop ((classifyFrames 0 f.frames).1
      ++ List.replicate (f.frames.length - (classifyFrames 0 f.frames).1.length)
          (zeroImage (f.frames.headD { header := [], data := [] }).data.length
            ((f.frames.headD { header := [], data := [] }).data.headD []).length))
    = trimChop (classifyFrames 0 f.frames).1
  exact trimChop_append_zeroes _ _ _ _

theorem openFit_chopb (scheme : String) (f : FitsFile) (number : Nat) :
    (openFit scheme f number).chopb = trimChop (classifyFrames 0 f.frames).2.1 := by
  show trimChop ((classifyFrames 0 f.frames).2.1
      ++ List.replicate (f.frames.length - (classifyFrames 0 f.frames).2.1.length)
          (zeroImage (f.frames.headD { header := [], data := [] }).data.length
            ((f.frames.headD { header := [], data := [] }).data.headD []).length))
    = trimChop (classifyFrames 0 f.frames).2.1
  exact trimChop_append_zeroes _ _ _ _

/-! Claim C4: nod fallback inference. -/

/-- C4: for a file whose composite header lacks the nod-position key
ESO SEQ NODPOS, the nod is inferred from the file's sequence index: under
scheme ABBA, index mod 4 in 0 or 3 gives A and 1 or 2 gives B; under
scheme ABAB, even gives A and odd gives B; and the warning naming the
fallback scheme is emitted exactly on the first file (index 0). -/
theorem nod_fallback_inference (header : Header) (scheme : String) (number : Nat)
    (hmiss : hfind header nodposKey = none) :
    (scheme = "ABBA" →
      (nodOf header scheme number).1
        = (if number % 4 = 0 ∨ number % 4 = 3 then "A" else "B"))
    ∧ (scheme = "ABAB" →
      (nodOf header scheme number).1
        = (if number % 2 = 0 then "A" else "B"))
    ∧ ((Warning.nodposMissing scheme ∈ (nodOf header scheme number).2)
        ↔ number = 0) := by
  refine ⟨?_, ?_, ?_⟩
  · intro hs
    subst hs
    simp [nodOf, hmiss, nodFallback]
  · intro hs
    subst hs
    simp [nodOf, hmiss, nodFallback]
  · by_cases h0 : number = 0 <;> simp [nodOf, hmiss, h0]

/-- Witness for C4 at concrete inputs: an empty header, scheme ABBA,
file index 3 falls back to nod A without the warning; index 0 warns. -/
theorem nod_fallback_inference_witness :
    (nodOf [] "ABBA" 3).1 = "A"
      ∧ (nodOf [] "ABAB" 3).1 = "B"
      ∧ Warning.nodposMissing "ABBA" ∉ (nodOf [] "ABBA" 3).2
      ∧ Warning.nodposMissing "ABBA" ∈ (nodOf [] "ABBA" 0).2 := by
  have hA := nod_fallback_inference [] "ABBA" 3 rfl
  have hB := nod_fallback_inference [] "ABAB" 3 rfl
  have h0 := nod_fallback_inference [] "ABBA" 0 rfl
  refine ⟨?_, ?_, ?_, ?_⟩
  · rw [hA.1 rfl]
    simp
  · rw [hB.2.1 rfl]
    simp
  · intro hm
    exact absurd (hA.2.2.mp hm) (by decide)
  · exact h0.2.2.mpr rfl

/-! Claim C3: the trim step of the chop buffers. -/

/-- A file whose single frame is tagged HCYCLE1 but has pixel (0,0) = 0. -/
def zeroPixFile : FitsFile :=
  { name := "z.fits", head := [(nodposKey, AVal.s "A")],
    frames := [{ header := [(framTypeKey, AVal.s "HCYCLE1")],
                 data := [[0, 5], [1, 2]] }] }

/-- C3 counterexample: zeroPixFile's only frame is tagged HCYCLE1 and the
classification loop writes it into the chop-A buffer, yet the trimmed
chop-A stack comes out empty: the written frame is discarded because its
pixel (0,0) is zero, so the trimmed buffer does not retain every HCYCLE1
frame and excludes more than the never-written all-zero sentinel slots. -/
theorem trim_drops_written_zero_frame :
    (classifyFrames 0 zeroPixFile.frames).1 = [[[0, 5], [1, 2]]]
      ∧ (openFit "ABBA" zeroPixFile 0).chopa = [] := by
  constructor
  · rfl
  · rfl

/-- C3 amended: after classifying one file's frames, the trimmed chop-A
(resp. chop-B) stack holds exactly the data of the frames tagged HCYCLE1
(resp. HCYCLE2) whose pixel (0,0) is nonzero, in frame order: the
never-written all-zero sentinel slots are excluded, but so is every
written frame whose pixel (0,0) happens to be zero. -/
theorem trim_keeps_nonzero_written_frames (scheme : String) (f : FitsFile)
    (number : Nat) :
    (openFit scheme f number).chopa
      = ((f.frames.filter
            (fun fr => decide (framType fr = some (AVal.s "HCYCLE1")))).map
            RawFrame.data).filter (fun img => pix00 img != 0)
    ∧ (openFit scheme f number).chopb
      = ((f.frames.filter
            (fun fr => decide (framType fr = some (AVal.s "HCYCLE2")))).map
            RawFrame.data).filter (fun img => pix00 img != 0) := by
  obtain ⟨h1, h2⟩ := classifyFrames_eq_filter 0 f.frames
  constructor
  · rw [openFit_chopa, h1]
    rfl
  · rw [openFit_chopb, h2]
    rfl

/-! Shared concrete fixtures. -/

/-- An empty output port with the given tag. -/
def emptyPort (t : String) : Port :=
  { tag := t, stacked := [], statics := [], appends := [], flushes := 0,
    history := [], closed := false }

/-- Four empty ports carrying the default distinct tags. -/
def emptyPorts : Ports :=
  { p1 := emptyPort "noda_chopa", p2 := emptyPort "noda_chopb",
    p3 := emptyPort "nodb_chopa", p4 := emptyPort "nodb_chopb" }

/-- A baseline valid configuration with no configured attributes. -/
def baseCfg : ModuleConfig :=
  { tag1 := "noda_chopa", tag2 := "noda_chopb", tag3 := "nodb_chopa",
    tag4 := "nodb_chopb", scheme := "ABBA", check := PyVal.bool true,
    overwrite := PyVal.bool true, location := "data/", mStatic := [],
    mNonStatic := [], configKey := fun _ => "None",
    attrFromHeader := fun _ => false, pixscale := AVal.n 45 }

/-- The module state at the start of a run. -/
def initState : MState :=
  { ports := emptyPorts, count := 0, warns := [], processed := [] }

/-- Number of entries of the append log recorded under the given name. -/
def countKey (l : List (String × AVal)) (k : String) : Nat :=
  (l.filter (fun q => q.1 == k)).length

/-! Claim C1: the global frame counter. -/

theorem extraAttributes_count (cfg : ModuleConfig) (fitsFile : String)
    (nimages : Nat) (nod : String) (ps : Ports) (count : Nat) :
    (extraAttributes cfg fitsFile nimages nod ps count).2.1 = count + nimages := by
  unfold extraAttributes
  by_cases h1 : nod = "A"
  · simp [h1]
  · by_cases h2 : nod = "B" <;> simp [h1, h2]

theorem processFile_count (cfg : ModuleConfig) (total : Nat) (st : MState)
    (i : Nat) (f : FitsFile) (st1 : MState)
    (h : processFile cfg total st i f = Except.ok st1) :
    st1.count = st.count + f.frames.length := by
  unfold processFile at h
  dsimp only at h
  split at h
  · exact Except.noConfusion h
  · cases h
    exact extraAttributes_count _ _ _ _ _ _

/-- A two-frame nod-A file whose second frame carries an unrecognized chop
tag XYZ. -/
def mixedTagFile : FitsFile :=
  { name := "m.fits", head := [(nodposKey, AVal.s "A")],
    frames := [{ header := [(framTypeKey, AVal.s "HCYCLE1")],
                 data := [[5, 1], [2, 3]] },
               { header := [(framTypeKey, AVal.s "XYZ")],
                 data := [[7, 1], [2, 3]] }] }

/-- C1 counterexample: over the run consisting of mixedTagFile alone, the
chop buckets received a single classified frame in total (the
unrecognized-tag frame entered neither bucket), yet the global frame
counter finishes at 2, not 1: a frame excluded for an unrecognized chop
tag still advances the counter. -/
theorem counter_advances_on_unrecognized_tag :
    (processFiles baseCfg 1 0 initState [mixedTagFile]).toOption.map MState.count
        = some 2
      ∧ (openFit "ABBA" mixedTagFile 0).chopa.length
          + (openFit "ABBA" mixedTagFile 0).chopb.length = 1 := by
  constructor
  · rfl
  · rfl

/-- C1 amended: the global frame counter advances by each file's total
frame count: after the run loop over any file list it equals its initial
value plus the sum of the files' frame counts, whether or not the frames
were classified — frames excluded for an unrecognized chop tag, and whole
files with an unusable nod value, advance it all the same.  Applied to a
prefix of the file list this gives the counter's value after file i, which
is therefore nondecreasing and strictly increasing over nonempty files. -/
theorem counter_cumulative_total_frames (cfg : ModuleConfig) (total : Nat)
    (i : Nat) (st : MState) (files : List FitsFile) (stf : MState)
    (h : processFiles cfg total i st files = Except.ok stf) :
    stf.count = st.count + (files.map (fun f => f.frames.length)).sum := by
  induction files generalizing i st with
  | nil =>
      simp only [processFiles] at h
      cases h
      simp
  | cons f rest ih =>
      simp only [processFiles] at h
      split at h
      · exact Except.noConfusion h
      · next st1 heq =>
          have hc := processFile_count cfg total st i f st1 heq
          have hr := ih (i + 1) st1 h
          rw [hr, hc]
          simp [Nat.add_assoc]

/-- A single-frame file whose header carries the unusable nod value C. -/
def nodCFile : FitsFile :=
  { name := "c.fits", head := [(nodposKey, AVal.s "C")],
    frames := [{ header := [(framTypeKey, AVal.s "HCYCLE1")],
                 data := [[5, 1], [2, 3]] }] }

/-- The module state after processing nodCFile alone from the initial
state: no port was touched, the counter advanced by the file's one frame,
and the chop-imbalance and bad-nod warnings were emitted. -/
def nodCState : MState :=
  { ports := emptyPorts, count := 1,
    warns := [Warning.chopCountMismatch, Warning.nodNotAB],
    processed := ["c.fits"] }

/-- Witness for C1 amended, at the concrete one-file run over nodCFile. -/
theorem counter_cumulative_total_frames_witness :
    nodCState.count
      = initState.count + ([nodCFile].map (fun f => f.frames.length)).sum :=
  counter_cumulative_total_frames baseCfg 1 0 initState [nodCFile] nodCState
    (by rfl)

/-! Claim C2: non-static attribute appends. -/

/-- A configuration with one configured non-static attribute PARANG. -/
def parangCfg : ModuleConfig :=
  { baseCfg with mNonStatic := ["PARANG"] }

/-- A nod-A file with two HCYCLE1 frames whose composite header carries
the non-static attribute PARANG. -/
def parangFile : FitsFile :=
  { name := "p.fits", head := [(nodposKey, AVal.s "A"), ("PARANG", AVal.n 17)],
    frames := [{ header := [(framTypeKey, AVal.s "HCYCLE1")],
                 data := [[5, 1], [2, 3]] },
               { header := [(framTypeKey, AVal.s "HCYCLE1")],
                 data := [[6, 1], [2, 3]] }] }

/-- C2 counterexample: parangFile routes two frames into the nod-A chop-A
stream (its stack receives both images), yet that stream's PARANG array
receives a single value, not one per routed frame; and the nod-B chop-A
stream, which the file's nod did not select and which received no frames,
gets the same PARANG value appended as well. -/
theorem nonstatic_append_counterexample :
    (processFiles parangCfg 1 0 initState [parangFile]).toOption.map
        (fun s => (countKey s.ports.p1.appends "PARANG",
                   countKey s.ports.p3.appends "PARANG",
                   s.ports.p1.stacked))
      = some (1, 1, [[[[5, 1], [2, 3]], [[6, 1], [2, 3]]]])
      ∧ (openFit "ABBA" parangFile 0).nod = "A" := by
  constructor
  · rfl
  · rfl

/-- Append a list of (name, value) pairs to a port's append log. -/
def appendList (p : Port) (l : List (String × AVal)) : Port :=
  { p with appends := p.appends ++ l }

/-- The (name, value) pairs _non_static_attributes resolves from one
file's composite header, one per configured item found directly or through
its configured FITS keyword. -/
def nonStaticResolved (cfg : ModuleConfig) (header : Header) :
    List String → List (String × AVal)
  | [] => []
  | item :: rest =>
      (match hfind header item with
       | some v => [(item, v)]
       | none =>
           if cfg.attrFromHeader item then
             if cfg.configKey item != "None" then
               match hfind header (cfg.configKey item) with
               | some v => [(item, v)]
               | none => []
             else []
           else []) ++ nonStaticResolved cfg header rest

theorem nonStaticFold_eq (cfg : ModuleConfig) (header : Header)
    (items : List String) (ps : Ports) (hc : cfg.check.truthy = true) :
    nonStaticFold cfg header ps items
      = { p1 := appendList ps.p1 (nonStaticResolved cfg header items),
          p2 := appendList ps.p2 (nonStaticResolved cfg header items),
          p3 := appendList ps.p3 (nonStaticResolved cfg header items),
          p4 := appendList ps.p4 (nonStaticResolved cfg header items) } := by
  induction items generalizing ps with
  | nil => simp [nonStaticFold, nonStaticResolved, appendList]
  | cons item rest ih =>
      have step : nonStaticFold cfg header ps (item :: rest)
          = nonStaticFold cfg header (nonStaticItem cfg header ps item) rest := rfl
      rw [step, ih]
      cases hh : hfind header item with
      | some v =>
          simp [nonStaticItem, hc, hh, nonStaticResolved, appendAll, appendList,
                Port.appendAttr]
      | none =>
          by_cases hf : cfg.attrFromHeader item
          · by_cases hk : cfg.configKey item != "None"
            · cases hk2 : hfind header (cfg.configKey item) with
              | some v =>
                  simp [nonStaticItem, hc, hh, hf, hk, hk2, nonStaticResolved,
                        appendAll, appendList, Port.appendAttr]
              | none =>
                  simp [nonStaticItem, hc, hh, hf, hk, hk2, nonStaticResolved,
                        appendAll, appendList, Port.appendAttr]
            · simp [nonStaticItem, hc, hh, hf, hk, nonStaticResolved,
                    appendAll, appendList, Port.appendAttr]
          · simp [nonStaticItem, hc, hh, hf, nonStaticResolved, appendAll,
                  appendList, Port.appendAttr]

/-- C2 amended: for every processed file, each configured non-static
attribute that resolves in the composite header (directly under its own
name, or through its configured FITS keyword) contributes exactly one
appended value per file — not one per frame — and that single value is
appended to all four streams, not only to the two selected by the file's
nod, so the non-static arrays do not stay index-aligned with the per-frame
stacks. -/
theorem nonstatic_append_once_per_file_all_streams (cfg : ModuleConfig)
    (header : Header) (ps : Ports) (hc : cfg.check.truthy = true) :
    nonStaticAttributes cfg header ps
      = { p1 := appendList ps.p1 (nonStaticResolved cfg header cfg.mNonStatic),
          p2 := appendList ps.p2 (nonStaticResolved cfg header cfg.mNonStatic),
          p3 := appendList ps.p3 (nonStaticResolved cfg header cfg.mNonStatic),
          p4 := appendList ps.p4 (nonStaticResolved cfg header cfg.mNonStatic) } :=
  nonStaticFold_eq cfg header cfg.mNonStatic ps hc

/-- Witness for C2 amended at a concrete header and the PARANG config. -/
theorem nonstatic_append_once_per_file_all_streams_witness :
    nonStaticAttributes parangCfg [("PARANG", AVal.n 17)] emptyPorts
      = { p1 := appendList emptyPorts.p1 [("PARANG", AVal.n 17)],
          p2 := appendList emptyPorts.p2 [("PARANG", AVal.n 17)],
          p3 := appendList emptyPorts.p3 [("PARANG", AVal.n 17)],
          p4 := appendList emptyPorts.p4 [("PARANG", AVal.n 17)] } :=
  nonstatic_append_once_per_file_all_streams parangCfg
    [("PARANG", AVal.n 17)] emptyPorts rfl

/-! Claim C6: the check flag. -/

/-- A port holding one appended stack, so its dataset exists. -/
def dataPort (t : String) : Port :=
  { emptyPort t with stacked := [[[[1]]]] }

/-- Four data-holding ports. -/
def dataPorts : Ports :=
  { p1 := dataPort "noda_chopa", p2 := dataPort "noda_chopb",
    p3 := dataPort "nodb_chopa", p4 := dataPort "nodb_chopb" }

/-- A lenient-mode (check = False) configuration whose attribute tables
are nonetheless populated and resolvable. -/
def lenientCfg : ModuleConfig :=
  { baseCfg with
    check := PyVal.bool false
    mStatic := ["INSTRUMENT"]
    mNonStatic := ["PARANG"]
    configKey := fun item => if item = "INSTRUMENT" then "INSTRUME" else "None" }

/-- A header carrying both configured attribute keys. -/
def lenientHeader : Header :=
  [("INSTRUME", AVal.s "VISIR"), ("PARANG", AVal.n 17)]

/-- C6: with check = False the module performs no attribute validation at
all, rather than walking a curated always-required subset: on a file whose
header resolves both a configured static and a configured non-static
attribute, and with all four streams holding data, the static collector
returns the ports untouched and emits nothing, and the non-static
collector appends nothing — while the same state under check = True does
record the static attribute. -/
theorem check_false_skips_all_validation :
    staticAttributes lenientCfg lenientHeader "f0.fits" 0 3 dataPorts
        = Except.ok (dataPorts, [])
      ∧ nonStaticAttributes lenientCfg lenientHeader dataPorts = dataPorts
      ∧ (staticAttributes { lenientCfg with check := PyVal.bool true }
            lenientHeader "f0.fits" 0 3 dataPorts).toOption.map
            (fun pw => pw.1.p1.statics)
          = some [("INSTRUMENT", AVal.s "VISIR")] := by
  refine ⟨rfl, rfl, rfl⟩

/-! Claim C7: the overwrite flag. -/

/-- A port holding data, attributes and a flush count from earlier use. -/
def dirtyPort (t : String) : Port :=
  { tag := t, stacked := [[[[1]]]], statics := [("PIXSCALE", AVal.n 45)],
    appends := [("INDEX", AVal.n 0)], flushes := 2, history := [],
    closed := false }

/-- Four dirty ports. -/
def dirtyPorts : Ports :=
  { p1 := dirtyPort "noda_chopa", p2 := dirtyPort "noda_chopb",
    p3 := dirtyPort "nodb_chopa", p4 := dirtyPort "nodb_chopb" }

/-- The state of a dirty port after del_all_data and del_all_attributes:
data and attributes gone, the rest untouched. -/
def clearedPort (t : String) : Port :=
  { emptyPort t with flushes := 2 }

/-- A valid configuration with overwrite = False. -/
def keepCfg : ModuleConfig :=
  { baseCfg with overwrite := PyVal.bool false }

/-- C7: the overwrite flag does not control the clearing: initialization
with overwrite = False (a validated boolean) still deletes all data and
attributes of the four output streams; the flag is type-checked and then
never consulted. -/
theorem initialization_clears_despite_overwrite_false :
    keepCfg.overwrite = PyVal.bool false
      ∧ dirtyPorts.p1.stacked ≠ [] ∧ dirtyPorts.p1.statics ≠ []
      ∧ initializePorts keepCfg dirtyPorts
          = Except.ok
              { p1 := clearedPort "noda_chopa", p2 := clearedPort "noda_chopb",
                p3 := clearedPort "nodb_chopa", p4 := clearedPort "nodb_chopb" } := by
  refine ⟨rfl, ?_, ?_, rfl⟩
  · intro hx
    exact List.noConfusion hx
  · intro hx
    exact List.noConfusion hx

/-! Claim C9: configuration faults abort the run. -/

theorem insertByName_length (f : FitsFile) (l : List FitsFile) :
    (insertByName f l).length = l.length + 1 := by
  induction l with
  | nil => rfl
  | cons g rest ih => by_cases h : f.name ≤ g.name <;> simp [insertByName, h, ih]

theorem sortFiles_length (l : List FitsFile) :
    (sortFiles l).length = l.length := by
  induction l with
  | nil => rfl
  | cons f rest ih => simp [sortFiles, insertByName_length, ih]

theorem initializePorts_error (cfg : ModuleConfig) (ps : Ports)
    (hbad : dupTags [cfg.tag1, cfg.tag2, cfg.tag3, cfg.tag4] = true
      ∨ (cfg.scheme ≠ "ABBA" ∧ cfg.scheme ≠ "ABAB")
      ∨ cfg.check.isBool = false
      ∨ cfg.overwrite.isBool = false) :
    ∃ msg, initializePorts cfg ps = Except.error msg := by
  unfold initializePorts
  rcases hbad with h | h | h | h
  · simp [h]
  · have hb : (cfg.scheme != "ABBA" && cfg.scheme != "ABAB") = true := by
      simp [bne_iff_ne, h.1, h.2]
    by_cases hd : dupTags [cfg.tag1, cfg.tag2, cfg.tag3, cfg.tag4]
    · simp [hd]
    · simp [hd, hb]
  · by_cases hd : dupTags [cfg.tag1, cfg.tag2, cfg.tag3, cfg.tag4]
    · simp [hd]
    · by_cases hs : (cfg.scheme != "ABBA" && cfg.scheme != "ABAB") = true
      · simp [hd, hs]
      · simp [hd, hs, h]
  · by_cases hd : dupTags [cfg.tag1, cfg.tag2, cfg.tag3, cfg.tag4]
    · simp [hd]
    · by_cases hs : (cfg.scheme != "ABBA" && cfg.scheme != "ABAB") = true
      · simp [hd, hs]
      · by_cases hc : cfg.check.isBool
        · simp [hd, hs, hc, h]
        · simp [hd, hs, hc]

/-- C9: every configuration fault — duplicate output tags, a nod scheme
other than the two supported literals, a non-boolean check or overwrite
flag — makes the run abort inside the validation step, before the
directory listing is consulted and before any file is opened; and a run
whose filtered listing holds no .fits file aborts before the processing
loop touches any file. -/
theorem config_faults_abort_run (cfg : ModuleConfig) (dirFiles : List FitsFile)
    (st : MState)
    (hbad : dupTags [cfg.tag1, cfg.tag2, cfg.tag3, cfg.tag4] = true
      ∨ (cfg.scheme ≠ "ABBA" ∧ cfg.scheme ≠ "ABAB")
      ∨ cfg.check.isBool = false
      ∨ cfg.overwrite.isBool = false
      ∨ dirFiles.filter (fun f => f.name.endsWith ".fits") = []) :
    ∃ msg, run cfg dirFiles st = Except.error msg := by
  rcases hbad with h | h | h | h | h
  · obtain ⟨msg, hmsg⟩ := initializePorts_error cfg st.ports (Or.inl h)
    exact ⟨msg, by simp [run, hmsg]⟩
  · obtain ⟨msg, hmsg⟩ := initializePorts_error cfg st.ports (Or.inr (Or.inl h))
    exact ⟨msg, by simp [run, hmsg]⟩
  · obtain ⟨msg, hmsg⟩ :=
      initializePorts_error cfg st.ports (Or.inr (Or.inr (Or.inl h)))
    exact ⟨msg, by simp [run, hmsg]⟩
  · obtain ⟨msg, hmsg⟩ :=
      initializePorts_error cfg st.ports (Or.inr (Or.inr (Or.inr h)))
    exact ⟨msg, by simp [run, hmsg]⟩
  · cases hi : initializePorts cfg st.ports with
    | error msg => exact ⟨msg, by simp [run, hi]⟩
    | ok ports0 =>
        refine ⟨"No FITS files found in the input directory", ?_⟩
        unfold run
        rw [hi, h]
        rfl

/-- A configuration naming the same tag for two output streams. -/
def dupTagCfg : ModuleConfig :=
  { baseCfg with tag2 := "noda_chopa" }

/-- Witness for C9: the duplicate-tag configuration aborts a run over an
existing file list. -/
theorem config_faults_abort_run_witness :
    ∃ msg, run dupTagCfg [nodCFile] initState = Except.error msg :=
  config_faults_abort_run dupTagCfg [nodCFile] initState (Or.inl (by rfl))

/-! Port-level helper lemmas for the static-attribute machinery. -/

theorem setStatic_stacked (p : Port) (k : String) (v : AVal) :
    (p.setStatic k v).stacked = p.stacked := by
  unfold Port.setStatic
  split <;> rfl

theorem setStatic_appends (p : Port) (k : String) (v : AVal) :
    (p.setStatic k v).appends = p.appends := by
  unfold Port.setStatic
  split <;> rfl

theorem setStatic_flushes (p : Port) (k : String) (v : AVal) :
    (p.setStatic k v).flushes = p.flushes := by
  unfold Port.setStatic
  split <;> rfl

theorem setStatic_tag (p : Port) (k : String) (v : AVal) :
    (p.setStatic k v).tag = p.tag := by
  unfold Port.setStatic
  split <;> rfl

theorem setStatic_hasData (p : Port) (k : String) (v : AVal) :
    (p.setStatic k v).hasData = p.hasData := by
  unfold Port.hasData
  rw [setStatic_stacked]

theorem find_map_set (l : List (String × AVal)) (k : String) (v : AVal)
    (h : l.any (fun q => q.1 == k) = true) :
    (l.map (fun q => if q.1 == k then (k, v) else q)).find? (fun q => q.1 == k)
      = some (k, v) := by
  induction l with
  | nil => cases h
  | cons q rest ih =>
      by_cases hq : (q.1 == k) = true
      · simp [List.find?, hq]
      · have hq2 : (q.1 == k) = false := by simpa using hq
        simp only [List.any_cons, hq2, Bool.false_or] at h
        simp only [List.map_cons]
        rw [if_neg hq]
        have hstep : List.find? (fun q => q.1 == k)
            (q :: List.map (fun q => if (q.1 == k) = true then (k, v) else q) rest)
            = List.find? (fun q => q.1 == k)
              (List.map (fun q => if (q.1 == k) = true then (k, v) else q) rest) :=
          List.find?_cons_of_neg _ hq
        rw [hstep]
        exact ih h

theorem find_append_new (l : List (String × AVal)) (k : String) (v : AVal)
    (h : l.any (fun q => q.1 == k) = false) :
    (l ++ [(k, v)]).find? (fun q => q.1 == k) = some (k, v) := by
  induction l with
  | nil => simp [List.find?]
  | cons q rest ih =>
      simp only [List.any_cons, Bool.or_eq_false_iff] at h
      simp [List.find?, h.1, ih h.2]

theorem getStatic_setStatic_same (p : Port) (k : String) (v : AVal) :
    (p.setStatic k v).getStatic k = some v := by
  unfold Port.setStatic Port.getStatic
  cases h : p.statics.any (fun q => q.1 == k) with
  | true =>
      simp only [h, if_true]
      rw [find_map_set p.statics k v h]
      rfl
  | false =>
      simp only [h, Bool.false_eq_true, if_false]
      rw [find_append_new p.statics k v h]
      rfl

theorem checkStatic_create {p : Port} {k : String} (v : AVal)
    (hd : p.hasData = true) (hg : p.getStatic k = none) :
    p.checkStaticAttribute k v = some (1, p.setStatic k v) := by
  simp [Port.checkStaticAttribute, hd, hg]

theorem checkStatic_same {p : Port} {k : String} {v : AVal}
    (hd : p.hasData = true) (hg : p.getStatic k = some v) :
    p.checkStaticAttribute k v = some (0, p) := by
  simp [Port.checkStaticAttribute, hd, hg]

theorem checkStatic_changed {p : Port} {k : String} {v0 : AVal} (v : AVal)
    (hd : p.hasData = true) (hg : p.getStatic k = some v0) (hne : v0 ≠ v) :
    p.checkStaticAttribute k v = some (-1, p.setStatic k v) := by
  simp [Port.checkStaticAttribute, hd, hg, hne]

theorem checkStatic_total {p : Port} (k : String) (v : AVal)
    (hd : p.hasData = true) :
    ∃ s0 q, p.checkStaticAttribute k v = some (s0, q) := by
  cases hg : p.getStatic k with
  | none => exact ⟨1, p.setStatic k v, checkStatic_create v hd hg⟩
  | some v0 =>
      by_cases hv : v0 = v
      · subst hv
        exact ⟨0, p, checkStatic_same hd hg⟩
      · exact ⟨-1, p.setStatic k v, checkStatic_changed v hd hg hv⟩

theorem checkStatic_stacked {p : Port} {k : String} {v : AVal} {r : Int × Port}
    (h : p.checkStaticAttribute k v = some r) : r.2.stacked = p.stacked := by
  unfold Port.checkStaticAttribute at h
  cases hd : p.hasData with
  | false => simp [hd] at h
  | true =>
      simp only [hd, if_true] at h
      cases hg : p.getStatic k with
      | none =>
          rw [hg] at h
          cases h
          exact setStatic_stacked p k v
      | some v0 =>
          rw [hg] at h
          by_cases hv : v0 = v
          · simp only [hv, if_true] at h
            cases h
            rfl
          · simp only [hv, if_false] at h
            cases h
            exact setStatic_stacked p k v

theorem checkStatic_appends {p : Port} {k : String} {v : AVal} {r : Int × Port}
    (h : p.checkStaticAttribute k v = some r) : r.2.appends = p.appends := by
  unfold Port.checkStaticAttribute at h
  cases hd : p.hasData with
  | false => simp [hd] at h
  | true =>
      simp only [hd, if_true] at h
      cases hg : p.getStatic k with
      | none =>
          rw [hg] at h
          cases h
          exact setStatic_appends p k v
      | some v0 =>
          rw [hg] at h
          by_cases hv : v0 = v
          · simp only [hv, if_true] at h
            cases h
            rfl
          · simp only [hv, if_false] at h
            cases h
            exact setStatic_appends p k v

theorem checkStatic_flushes {p : Port} {k : String} {v : AVal} {r : Int × Port}
    (h : p.checkStaticAttribute k v = some r) : r.2.flushes = p.flushes := by
  unfold Port.checkStaticAttribute at h
  cases hd : p.hasData with
  | false => simp [hd] at h
  | true =>
      simp only [hd, if_true] at h
      cases hg : p.getStatic k with
      | none =>
          rw [hg] at h
          cases h
          exact setStatic_flushes p k v
      | some v0 =>
          rw [hg] at h
          by_cases hv : v0 = v
          · simp only [hv, if_true] at h
            cases h
            rfl
          · simp only [hv, if_false] at h
            cases h
            exact setStatic_flushes p k v

theorem checkStatic_tag {p : Port} {k : String} {v : AVal} {r : Int × Port}
    (h : p.checkStaticAttribute k v = some r) : r.2.tag = p.tag := by
  unfold Port.checkStaticAttribute at h
  cases hd : p.hasData with
  | false => simp [hd] at h
  | true =>
      simp only [hd, if_true] at h
      cases hg : p.getStatic k with
      | none =>
          rw [hg] at h
          cases h
          exact setStatic_tag p k v
      | some v0 =>
          rw [hg] at h
          by_cases hv : v0 = v
          · simp only [hv, if_true] at h
            cases h
            rfl
          · simp only [hv, if_false] at h
            cases h
            exact setStatic_tag p k v

/-! staticTry-level helper lemmas. -/

theorem staticTry_of_check {item : String} {v : AVal} {iteration e : Nat}
    {p : Port} {s0 : Int} {q : Port} {s : Option Int} {fl : Bool}
    {ws : List Warning} (h : p.checkStaticAttribute item v = some (s0, q)) :
    staticTry item v iteration e p s fl ws = (q, some s0, fl, ws) := by
  unfold staticTry
  rw [h]

theorem staticTry_keyerror_last {item : String} {v : AVal} {e : Nat} {p : Port}
    {s : Option Int} {ws : List Warning} (hd : p.hasData = false) :
    staticTry item v e e p s false ws
      = (p, s, true, ws ++ [Warning.emptyTag p.tag]) := by
  unfold staticTry Port.checkStaticAttribute
  simp [hd]

theorem staticTry_fst_stacked (item : String) (v : AVal) (iteration e : Nat)
    (p : Port) (s : Option Int) (fl : Bool) (ws : List Warning) :
    (staticTry item v iteration e p s fl ws).1.stacked = p.stacked := by
  unfold staticTry
  cases hc : p.checkStaticAttribute item v with
  | none =>
      dsimp only
      split <;> rfl
  | some r =>
      dsimp only
      exact checkStatic_stacked hc

theorem staticTry_fst_appends (item : String) (v : AVal) (iteration e : Nat)
    (p : Port) (s : Option Int) (fl : Bool) (ws : List Warning) :
    (staticTry item v iteration e p s fl ws).1.appends = p.appends := by
  unfold staticTry
  cases hc : p.checkStaticAttribute item v with
  | none =>
      dsimp only
      split <;> rfl
  | some r =>
      dsimp only
      exact checkStatic_appends hc

theorem staticTry_fst_flushes (item : String) (v : AVal) (iteration e : Nat)
    (p : Port) (s : Option Int) (fl : Bool) (ws : List Warning) :
    (staticTry item v iteration e p s fl ws).1.flushes = p.flushes := by
  unfold staticTry
  cases hc : p.checkStaticAttribute item v with
  | none =>
      dsimp only
      split <;> rfl
  | some r =>
      dsimp only
      exact checkStatic_flushes hc

theorem staticTry_fst_tag (item : String) (v : AVal) (iteration e : Nat)
    (p : Port) (s : Option Int) (fl : Bool) (ws : List Warning) :
    (staticTry item v iteration e p s fl ws).1.tag = p.tag := by
  unfold staticTry
  cases hc : p.checkStaticAttribute item v with
  | none =>
      dsimp only
      split <;> rfl
  | some r =>
      dsimp only
      exact checkStatic_tag hc

theorem staticTry_warns_mono (item : String) (v : AVal) (iteration e : Nat)
    (p : Port) (s : Option Int) (fl : Bool) (ws : List Warning) :
    ∃ l, (staticTry item v iteration e p s fl ws).2.2.2 = ws ++ l := by
  unfold staticTry
  cases hc : p.checkStaticAttribute item v with
  | none =>
      dsimp only
      split
      · exact ⟨[Warning.emptyTag p.tag], rfl⟩
      · exact ⟨[], (List.append_nil ws).symm⟩
  | some r => exact ⟨[], (List.append_nil ws).symm⟩

theorem staticTry_warns_of_ne {iteration e : Nat} (item : String) (v : AVal)
    (p : Port) (s : Option Int) (fl : Bool) (ws : List Warning)
    (hne : iteration ≠ e) :
    (staticTry item v iteration e p s fl ws).2.2.2 = ws := by
  unfold staticTry
  cases hc : p.checkStaticAttribute item v with
  | none =>
      dsimp only
      split
      · next hcond =>
          rw [Bool.and_eq_true] at hcond
          exact absurd (by simpa using hcond.1) hne
      · rfl
  | some r => rfl

/-! staticItem-level helper lemmas. -/

theorem staticItem_of_checks (cfg : ModuleConfig) (header : Header)
    (fitsFile : String) (iteration e : Nat) (st : StaticLoop) (item : String)
    {v : AVal} {s1 s2 s3 s4 : Int} {q1 q2 q3 q4 : Port}
    (hch : cfg.check.truthy = true)
    (hkeyN : (cfg.configKey item != "None") = true)
    (hv : hfind header (cfg.configKey item) = some v)
    (c1 : st.ports.p1.checkStaticAttribute item v = some (s1, q1))
    (c2 : st.ports.p2.checkStaticAttribute item v = some (s2, q2))
    (c3 : st.ports.p3.checkStaticAttribute item v = some (s3, q3))
    (c4 : st.ports.p4.checkStaticAttribute item v = some (s4, q4)) :
    staticItem cfg header fitsFile iteration e st item
      = Except.ok
          { ports :=
              if s4 = 1 then
                { p1 := q1.addStaticAttribute item v,
                  p2 := q2.addStaticAttribute item v,
                  p3 := q3.addStaticAttribute item v,
                  p4 := q4.addStaticAttribute item v }
              else { p1 := q1, p2 := q2, p3 := q3, p4 := q4 },
            status := some s4, fa := st.fa, fb := st.fb, fc := st.fc,
            fd := st.fd,
            warns :=
              if s4 = -1 then
                st.warns ++ [Warning.staticChanged (cfg.configKey item) fitsFile]
              else st.warns } := by
  simp only [staticItem, hch, hkeyN, hv, if_true]
  rw [staticTry_of_check c1]
  dsimp only
  rw [staticTry_of_check c2]
  dsimp only
  rw [staticTry_of_check c3]
  dsimp only
  rw [staticTry_of_check c4]

theorem staticItem_missing_key (cfg : ModuleConfig) (header : Header)
    (fitsFile : String) (iteration e : Nat) (st : StaticLoop) (item : String)
    (hch : cfg.check.truthy = true)
    (hkeyN : (cfg.configKey item != "None") = true)
    (hv : hfind header (cfg.configKey item) = none) :
    staticItem cfg header fitsFile iteration e st item
      = Except.ok
          { st with
            warns := st.warns ++ [Warning.staticMissing item (cfg.configKey item)] } := by
  simp only [staticItem, hch, hkeyN, hv, if_true]

theorem staticItem_ports_fields {cfg : ModuleConfig} {header : Header}
    {fitsFile : String} {iteration e : Nat} {st : StaticLoop} {item : String}
    {st1 : StaticLoop}
    (h : staticItem cfg header fitsFile iteration e st item = Except.ok st1) :
    (st1.ports.p1.stacked = st.ports.p1.stacked
      ∧ st1.ports.p1.appends = st.ports.p1.appends
      ∧ st1.ports.p1.flushes = st.ports.p1.flushes
      ∧ st1.ports.p1.tag = st.ports.p1.tag)
    ∧ (st1.ports.p2.stacked = st.ports.p2.stacked
      ∧ st1.ports.p2.appends = st.ports.p2.appends
      ∧ st1.ports.p2.flushes = st.ports.p2.flushes
      ∧ st1.ports.p2.tag = st.ports.p2.tag)
    ∧ (st1.ports.p3.stacked = st.ports.p3.stacked
      ∧ st1.ports.p3.appends = st.ports.p3.appends
      ∧ st1.ports.p3.flushes = st.ports.p3.flushes
      ∧ st1.ports.p3.tag = st.ports.p3.tag)
    ∧ (st1.ports.p4.stacked = st.ports.p4.stacked
      ∧ st1.ports.p4.appends = st.ports.p4.appends
      ∧ st1.ports.p4.flushes = st.ports.p4.flushes
      ∧ st1.ports.p4.tag = st.ports.p4.tag) := by
  unfold staticItem at h
  dsimp only at h
  split at h
  · split at h
    · split at h
      · split at h
        · exact Except.noConfusion h
        · cases h
          next s heq =>
            by_cases hs : s = 1 <;>
              simp [hs, Port.addStaticAttribute, setStatic_stacked,
                setStatic_appends, setStatic_flushes, setStatic_tag,
                staticTry_fst_stacked, staticTry_fst_appends,
                staticTry_fst_flushes, staticTry_fst_tag]
      · cases h
        exact ⟨⟨rfl, rfl, rfl, rfl⟩, ⟨rfl, rfl, rfl, rfl⟩,
          ⟨rfl, rfl, rfl, rfl⟩, ⟨rfl, rfl, rfl, rfl⟩⟩
    · cases h
      exact ⟨⟨rfl, rfl, rfl, rfl⟩, ⟨rfl, rfl, rfl, rfl⟩,
        ⟨rfl, rfl, rfl, rfl⟩, ⟨rfl, rfl, rfl, rfl⟩⟩
  · cases h
    exact ⟨⟨rfl, rfl, rfl, rfl⟩, ⟨rfl, rfl, rfl, rfl⟩,
      ⟨rfl, rfl, rfl, rfl⟩, ⟨rfl, rfl, rfl, rfl⟩⟩

theorem staticItem_warns_classified {cfg : ModuleConfig} {header : Header}
    {fitsFile : String} {iteration e : Nat} {st : StaticLoop} {item : String}
    {st1 : StaticLoop} (hne : iteration ≠ e)
    (h : staticItem cfg header fitsFile iteration e st item = Except.ok st1) :
    st1.warns = st.warns
      ∨ st1.warns = st.warns ++ [Warning.staticChanged (cfg.configKey item) fitsFile]
      ∨ st1.warns = st.warns ++ [Warning.staticMissing item (cfg.configKey item)] := by
  have W : ∀ (it : String) (v : AVal) (p : Port) (s : Option Int) (fl : Bool)
      (ws : List Warning),
      (staticTry it v iteration e p s fl ws).2.2.2 = ws :=
    fun it v p s fl ws => staticTry_warns_of_ne it v p s fl ws hne
  unfold staticItem at h
  dsimp only at h
  split at h
  · split at h
    · split at h
      · simp only [W] at h
        split at h
        · exact Except.noConfusion h
        · cases h
          next s heq =>
            by_cases hs : s = -1
            · right
              left
              simp [hs]
            · left
              simp [hs]
      · cases h
        right
        right
        rfl
    · cases h
      left
      rfl
  · cases h
    left
    rfl

/-! Claim C5: static attribute create / verify / warn-and-update. -/

theorem staticFold_singleton {cfg : ModuleConfig} {header : Header}
    {fitsFile : String} {iteration e : Nat} {st st1 : StaticLoop}
    {item : String}
    (h : staticItem cfg header fitsFile iteration e st item = Except.ok st1) :
    staticFold cfg header fitsFile iteration e st [item] = Except.ok st1 := by
  unfold staticFold
  rw [h]
  rfl

theorem staticAttributes_singleton {cfg : ModuleConfig} {header : Header}
    {fitsFile : String} {iteration e : Nat} {ps : Ports} {item : String}
    {st1 : StaticLoop} (hlist : cfg.mStatic = [item])
    (h : staticItem cfg header fitsFile iteration e
          { ports := ps, status := none, fa := false, fb := false,
            fc := false, fd := false, warns := [] } item = Except.ok st1) :
    staticAttributes cfg header fitsFile iteration e ps
      = Except.ok (st1.ports, st1.warns) := by
  unfold staticAttributes
  dsimp only
  rw [hlist, staticFold_singleton h]

/-- C5: per output stream, one static attribute across two files.  With a
single configured static attribute resolving through its FITS keyword, all
four streams holding data, and no recorded value yet: processing the first
file creates the value on every stream with no warning; a second file
presenting an equal value changes nothing and warns nothing; a second file
presenting a different value produces exactly one warning and overwrites
the recorded value, so the later value is retained.  (The check that
overwrites on mismatch lives in the output port's check_static_attribute,
modelled from the spec; see that definition.) -/
theorem static_create_verify_warn_overwrite (cfg : ModuleConfig)
    (item : String) (v1 v2 : AVal) (h1 h2 : Header) (f1 f2 : String)
    (i1 i2 e : Nat) (ps : Ports)
    (hch : cfg.check.truthy = true)
    (hlist : cfg.mStatic = [item])
    (hkeyN : (cfg.configKey item != "None") = true)
    (hv1 : hfind h1 (cfg.configKey item) = some v1)
    (hv2 : hfind h2 (cfg.configKey item) = some v2)
    (hd1 : ps.p1.hasData = true) (hd2 : ps.p2.hasData = true)
    (hd3 : ps.p3.hasData = true) (hd4 : ps.p4.hasData = true)
    (hg1 : ps.p1.getStatic item = none) (hg2 : ps.p2.getStatic item = none)
    (hg3 : ps.p3.getStatic item = none) (hg4 : ps.p4.getStatic item = none) :
    ∃ ps1 : Ports,
      staticAttributes cfg h1 f1 i1 e ps = Except.ok (ps1, [])
      ∧ ps1.p1.getStatic item = some v1 ∧ ps1.p2.getStatic item = some v1
      ∧ ps1.p3.getStatic item = some v1 ∧ ps1.p4.getStatic item = some v1
      ∧ (v2 = v1 →
          staticAttributes cfg h2 f2 i2 e ps1 = Except.ok (ps1, []))
      ∧ (v2 ≠ v1 →
          ∃ ps2 : Ports,
            staticAttributes cfg h2 f2 i2 e ps1
              = Except.ok
                  (ps2, [Warning.staticChanged (cfg.configKey item) f2])
            ∧ ps2.p1.getStatic item = some v2
            ∧ ps2.p2.getStatic item = some v2
            ∧ ps2.p3.getStatic item = some v2
            ∧ ps2.p4.getStatic item = some v2) := by
  have hi1 := staticItem_of_checks cfg h1 f1 i1 e
      { ports := ps, status := none, fa := false, fb := false,
        fc := false, fd := false, warns := [] } item
      hch hkeyN hv1
      (checkStatic_create v1 hd1 hg1) (checkStatic_create v1 hd2 hg2)
      (checkStatic_create v1 hd3 hg3) (checkStatic_create v1 hd4 hg4)
  rw [if_pos rfl, if_neg (by decide)] at hi1
  have hs1 := staticAttributes_singleton hlist hi1
  dsimp only at hs1
  simp only [Port.addStaticAttribute] at hs1
  refine ⟨_, hs1, getStatic_setStatic_same _ _ _, getStatic_setStatic_same _ _ _,
    getStatic_setStatic_same _ _ _, getStatic_setStatic_same _ _ _, ?_, ?_⟩
  · intro hv
    subst hv
    have hi2 := staticItem_of_checks cfg h2 f2 i2 e
        { ports :=
            { p1 := (ps.p1.setStatic item v2).setStatic item v2,
              p2 := (ps.p2.setStatic item v2).setStatic item v2,
              p3 := (ps.p3.setStatic item v2).setStatic item v2,
              p4 := (ps.p4.setStatic item v2).setStatic item v2 },
          status := none, fa := false, fb := false,
          fc := false, fd := false, warns := [] } item
        hch hkeyN hv2
        (checkStatic_same (by rw [setStatic_hasData, setStatic_hasData]; exact hd1)
          (getStatic_setStatic_same _ _ _))
        (checkStatic_same (by rw [setStatic_hasData, setStatic_hasData]; exact hd2)
          (getStatic_setStatic_same _ _ _))
        (checkStatic_same (by rw [setStatic_hasData, setStatic_hasData]; exact hd3)
          (getStatic_setStatic_same _ _ _))
        (checkStatic_same (by rw [setStatic_hasData, setStatic_hasData]; exact hd4)
          (getStatic_setStatic_same _ _ _))
    rw [if_neg (by decide), if_neg (by decide)] at hi2
    have hs2 := staticAttributes_singleton hlist hi2
    dsimp only at hs2
    exact hs2
  · intro hvne
    have hi2 := staticItem_of_checks cfg h2 f2 i2 e
        { ports :=
            { p1 := (ps.p1.setStatic item v1).setStatic item v1,
              p2 := (ps.p2.setStatic item v1).setStatic item v1,
              p3 := (ps.p3.setStatic item v1).setStatic item v1,
              p4 := (ps.p4.setStatic item v1).setStatic item v1 },
          status := none, fa := false, fb := false,
          fc := false, fd := false, warns := [] } item
        hch hkeyN hv2
        (checkStatic_changed v2
          (by rw [setStatic_hasData, setStatic_hasData]; exact hd1)
          (getStatic_setStatic_same _ _ _) (fun hx => hvne hx.symm))
        (checkStatic_changed v2
          (by rw [setStatic_hasData, setStatic_hasData]; exact hd2)
          (getStatic_setStatic_same _ _ _) (fun hx => hvne hx.symm))
        (checkStatic_changed v2
          (by rw [setStatic_hasData, setStatic_hasData]; exact hd3)
          (getStatic_setStatic_same _ _ _) (fun hx => hvne hx.symm))
        (checkStatic_changed v2
          (by rw [setStatic_hasData, setStatic_hasData]; exact hd4)
          (getStatic_setStatic_same _ _ _) (fun hx => hvne hx.symm))
    rw [if_neg (by decide), if_pos rfl] at hi2
    have hs2 := staticAttributes_singleton hlist hi2
    dsimp only at hs2
    refine ⟨_, hs2, getStatic_setStatic_same _ _ _,
      getStatic_setStatic_same _ _ _, getStatic_setStatic_same _ _ _,
      getStatic_setStatic_same _ _ _⟩

/-- A configuration with one configured static attribute INSTRUMENT read
from the FITS keyword INSTRUME. -/
def staticCfg : ModuleConfig :=
  { baseCfg with
    mStatic := ["INSTRUMENT"]
    configKey := fun item => if item = "INSTRUMENT" then "INSTRUME" else "None" }

/-- Witness for C5 at concrete inputs: two files with INSTRUME values
VISIR and then OTHER over data-holding streams. -/
theorem static_create_verify_warn_overwrite_witness :
    ∃ ps1 : Ports,
      staticAttributes staticCfg [("INSTRUME", AVal.s "VISIR")] "f1.fits" 0 1
          dataPorts
        = Except.ok (ps1, [])
      ∧ ps1.p1.getStatic "INSTRUMENT" = some (AVal.s "VISIR")
      ∧ ps1.p2.getStatic "INSTRUMENT" = some (AVal.s "VISIR")
      ∧ ps1.p3.getStatic "INSTRUMENT" = some (AVal.s "VISIR")
      ∧ ps1.p4.getStatic "INSTRUMENT" = some (AVal.s "VISIR")
      ∧ (AVal.s "OTHER" = AVal.s "VISIR" →
          staticAttributes staticCfg [("INSTRUME", AVal.s "OTHER")] "f2.fits" 1 1
              ps1
            = Except.ok (ps1, []))
      ∧ (AVal.s "OTHER" ≠ AVal.s "VISIR" →
          ∃ ps2 : Ports,
            staticAttributes staticCfg [("INSTRUME", AVal.s "OTHER")] "f2.fits" 1 1
                ps1
              = Except.ok
                  (ps2, [Warning.staticChanged (staticCfg.configKey "INSTRUMENT")
                          "f2.fits"])
            ∧ ps2.p1.getStatic "INSTRUMENT" = some (AVal.s "OTHER")
            ∧ ps2.p2.getStatic "INSTRUMENT" = some (AVal.s "OTHER")
            ∧ ps2.p3.getStatic "INSTRUMENT" = some (AVal.s "OTHER")
            ∧ ps2.p4.getStatic "INSTRUMENT" = some (AVal.s "OTHER")) :=
  static_create_verify_warn_overwrite staticCfg "INSTRUMENT"
    (AVal.s "VISIR") (AVal.s "OTHER")
    [("INSTRUME", AVal.s "VISIR")] [("INSTRUME", AVal.s "OTHER")]
    "f1.fits" "f2.fits" 0 1 1 dataPorts rfl rfl rfl rfl rfl
    rfl rfl rfl rfl rfl rfl rfl rfl

/-! Claim C8: which warning is gated to the last file. -/

/-- C8 counterexample: a file that is not the last of the run (iteration 0,
end = 1) and whose composite header lacks the configured key INSTRUME
already triggers the missing-key warning: that warning is not reserved for
the last file. -/
theorem missing_key_warns_on_early_file :
    staticAttributes staticCfg [("OTHER", AVal.s "x")] "f0.fits" 0 1 dataPorts
      = Except.ok (dataPorts, [Warning.staticMissing "INSTRUMENT" "INSTRUME"]) := by
  rfl

/-- C8 amended: with one configured static attribute, (1) the warning for
a configured key absent from the composite header fires on every file that
lacks the key, whatever its position in the run; (2) the empty-stream
warning (KeyError from a stream that never received frames) never fires on
a file that is not the last (iteration different from end); (3) on the
last file it does fire, once per data-less stream, here for both nod-A
streams when they never received frames while the nod-B streams hold
data. -/
theorem missing_key_warning_gating (cfg : ModuleConfig) (item : String)
    (header : Header) (f : String) (iteration e : Nat) (ps : Ports)
    (hch : cfg.check.truthy = true) (hlist : cfg.mStatic = [item])
    (hkeyN : (cfg.configKey item != "None") = true) :
    (hfind header (cfg.configKey item) = none →
      staticAttributes cfg header f iteration e ps
        = Except.ok (ps, [Warning.staticMissing item (cfg.configKey item)]))
    ∧ (iteration ≠ e →
        ∀ pw, staticAttributes cfg header f iteration e ps = Except.ok pw →
          ∀ t, Warning.emptyTag t ∉ pw.2)
    ∧ (∀ v, hfind header (cfg.configKey item) = some v →
        ps.p1.hasData = false → ps.p2.hasData = false →
        ps.p3.hasData = true → ps.p4.hasData = true →
        ∀ pw, staticAttributes cfg header f e e ps = Except.ok pw →
          Warning.emptyTag ps.p1.tag ∈ pw.2
            ∧ Warning.emptyTag ps.p2.tag ∈ pw.2) := by
  refine ⟨?_, ?_, ?_⟩
  · intro hmiss
    have hi := staticItem_missing_key cfg header f iteration e
        { ports := ps, status := none, fa := false, fb := false,
          fc := false, fd := false, warns := [] } item
        hch hkeyN hmiss
    have hs := staticAttributes_singleton hlist hi
    exact hs
  · intro hne pw hok
    unfold staticAttributes at hok
    dsimp only at hok
    rw [hlist] at hok
    split at hok
    · exact Except.noConfusion hok
    · next stf heq =>
        cases hok
        unfold staticFold at heq
        split at heq
        · exact Except.noConfusion heq
        · next st2 heq2 =>
            cases heq
            intro t hmem
            rcases staticItem_warns_classified hne heq2 with hw | hw | hw <;>
              rw [hw] at hmem <;> simp at hmem
  · intro v hv hd1 hd2 hd3 hd4 pw hok
    obtain ⟨s3, q3, hc3⟩ := checkStatic_total item v hd3
    obtain ⟨s4, q4, hc4⟩ := checkStatic_total item v hd4
    unfold staticAttributes at hok
    dsimp only at hok
    rw [hlist] at hok
    unfold staticFold at hok
    simp only [staticItem, hch, hkeyN, hv, if_true] at hok
    rw [staticTry_keyerror_last hd1] at hok
    dsimp only at hok
    rw [staticTry_keyerror_last hd2] at hok
    dsimp only at hok
    rw [staticTry_of_check hc3] at hok
    dsimp only at hok
    rw [staticTry_of_check hc4] at hok
    simp only [staticFold] at hok
    cases hok
    by_cases hs4 : s4 = -1 <;> simp [hs4]

/-- Witness for C8 amended: on file 0 of a 3-file run (end = 2), a header
lacking INSTRUME already triggers the missing-key warning. -/
theorem missing_key_warning_gating_witness :
    staticAttributes staticCfg [("OTHER", AVal.s "x")] "g0.fits" 0 2 dataPorts
      = Except.ok (dataPorts, [Warning.staticMissing "INSTRUMENT" "INSTRUME"]) :=
  (missing_key_warning_gating staticCfg "INSTRUMENT" [("OTHER", AVal.s "x")]
      "g0.fits" 0 2 dataPorts rfl rfl rfl).1 rfl

/-! Claim C10: files with a nod value other than A or B. -/

/-- The two ports-states agree on frame stacks, append logs, flush counts
and tags; only the static attributes may differ. -/
def portsShapeEq (a b : Ports) : Prop :=
  (a.p1.stacked = b.p1.stacked ∧ a.p1.appends = b.p1.appends
    ∧ a.p1.flushes = b.p1.flushes ∧ a.p1.tag = b.p1.tag)
  ∧ (a.p2.stacked = b.p2.stacked ∧ a.p2.appends = b.p2.appends
    ∧ a.p2.flushes = b.p2.flushes ∧ a.p2.tag = b.p2.tag)
  ∧ (a.p3.stacked = b.p3.stacked ∧ a.p3.appends = b.p3.appends
    ∧ a.p3.flushes = b.p3.flushes ∧ a.p3.tag = b.p3.tag)
  ∧ (a.p4.stacked = b.p4.stacked ∧ a.p4.appends = b.p4.appends
    ∧ a.p4.flushes = b.p4.flushes ∧ a.p4.tag = b.p4.tag)

theorem portsShapeEq_refl (a : Ports) : portsShapeEq a a :=
  ⟨⟨rfl, rfl, rfl, rfl⟩, ⟨rfl, rfl, rfl, rfl⟩,
    ⟨rfl, rfl, rfl, rfl⟩, ⟨rfl, rfl, rfl, rfl⟩⟩

theorem portsShapeEq_trans {a b c : Ports} (h1 : portsShapeEq a b)
    (h2 : portsShapeEq b c) : portsShapeEq a c :=
  ⟨⟨h1.1.1.trans h2.1.1, h1.1.2.1.trans h2.1.2.1,
      h1.1.2.2.1.trans h2.1.2.2.1, h1.1.2.2.2.trans h2.1.2.2.2⟩,
    ⟨h1.2.1.1.trans h2.2.1.1, h1.2.1.2.1.trans h2.2.1.2.1,
      h1.2.1.2.2.1.trans h2.2.1.2.2.1, h1.2.1.2.2.2.trans h2.2.1.2.2.2⟩,
    ⟨h1.2.2.1.1.trans h2.2.2.1.1, h1.2.2.1.2.1.trans h2.2.2.1.2.1,
      h1.2.2.1.2.2.1.trans h2.2.2.1.2.2.1,
      h1.2.2.1.2.2.2.trans h2.2.2.1.2.2.2⟩,
    ⟨h1.2.2.2.1.trans h2.2.2.2.1, h1.2.2.2.2.1.trans h2.2.2.2.2.1,
      h1.2.2.2.2.2.1.trans h2.2.2.2.2.2.1,
      h1.2.2.2.2.2.2.trans h2.2.2.2.2.2.2⟩⟩

theorem staticFold_shape {cfg : ModuleConfig} {header : Header}
    {fitsFile : String} {iteration e : Nat} :
    ∀ (items : List String) (st st1 : StaticLoop),
      staticFold cfg header fitsFile iteration e st items = Except.ok st1 →
      portsShapeEq st1.ports st.ports
  | [], st, st1, h => by
      cases h
      exact portsShapeEq_refl _
  | item :: rest, st, st1, h => by
      unfold staticFold at h
      split at h
      · exact Except.noConfusion h
      · next st2 heq =>
          exact portsShapeEq_trans (staticFold_shape rest st2 st1 h)
            (staticItem_ports_fields heq)

theorem staticAttributes_shape {cfg : ModuleConfig} {header : Header}
    {fitsFile : String} {iteration e : Nat} {ps : Ports}
    {pw : Ports × List Warning}
    (h : staticAttributes cfg header fitsFile iteration e ps = Except.ok pw) :
    portsShapeEq pw.1 ps := by
  unfold staticAttributes at h
  dsimp only at h
  split at h
  · exact Except.noConfusion h
  · next stf heq =>
      cases h
      exact staticFold_shape _ _ _ heq

theorem nonStaticItem_shape (cfg : ModuleConfig) (header : Header) (ps : Ports)
    (item : String) :
    ∃ l : List (String × AVal), (∀ q ∈ l, q.1 = item)
      ∧ nonStaticItem cfg header ps item
          = { p1 := appendList ps.p1 l, p2 := appendList ps.p2 l,
              p3 := appendList ps.p3 l, p4 := appendList ps.p4 l } := by
  by_cases hc : cfg.check.truthy
  · cases hh : hfind header item with
    | some v =>
        refine ⟨[(item, v)], by simp, ?_⟩
        simp [nonStaticItem, hc, hh, appendAll, appendList, Port.appendAttr]
    | none =>
        by_cases hf : cfg.attrFromHeader item
        · by_cases hk : (cfg.configKey item != "None") = true
          · cases hk2 : hfind header (cfg.configKey item) with
            | some v =>
                refine ⟨[(item, v)], by simp, ?_⟩
                simp [nonStaticItem, hc, hh, hf, hk, hk2, appendAll,
                  appendList, Port.appendAttr]
            | none =>
                refine ⟨[], by simp, ?_⟩
                simp [nonStaticItem, hc, hh, hf, hk, hk2, appendList]
          · refine ⟨[], by simp, ?_⟩
            simp [nonStaticItem, hc, hh, hf, hk, appendList]
        · refine ⟨[], by simp, ?_⟩
          simp [nonStaticItem, hc, hh, hf, appendList]
  · refine ⟨[], by simp, ?_⟩
    simp [nonStaticItem, hc, appendList]

theorem nonStaticFold_shape (cfg : ModuleConfig) (header : Header) :
    ∀ (items : List String) (ps : Ports),
      ∃ l : List (String × AVal), (∀ q ∈ l, q.1 ∈ items)
        ∧ nonStaticFold cfg header ps items
            = { p1 := appendList ps.p1 l, p2 := appendList ps.p2 l,
                p3 := appendList ps.p3 l, p4 := appendList ps.p4 l }
  | [], ps => ⟨[], by simp, by simp [nonStaticFold, appendList]⟩
  | item :: rest, ps => by
      obtain ⟨l1, hl1, he1⟩ := nonStaticItem_shape cfg header ps item
      obtain ⟨l2, hl2, he2⟩ :=
        nonStaticFold_shape cfg header rest (nonStaticItem cfg header ps item)
      refine ⟨l1 ++ l2, ?_, ?_⟩
      · intro q hq
        rcases List.mem_append.mp hq with hq1 | hq2
        · rw [hl1 q hq1]
          exact List.mem_cons_self item rest
        · exact List.mem_cons_of_mem _ (hl2 q hq2)
      · have hstep : nonStaticFold cfg header ps (item :: rest)
            = nonStaticFold cfg header (nonStaticItem cfg header ps item) rest :=
          rfl
        rw [hstep, he2, he1]
        simp [appendList, List.append_assoc]

theorem countKey_append (a b : List (String × AVal)) (k : String) :
    countKey (a ++ b) k = countKey a k + countKey b k := by
  simp [countKey, List.filter_append]

theorem countKey_zero_of_keys {l : List (String × AVal)} {items : List String}
    (hall : ∀ q ∈ l, q.1 ∈ items) {k : String} (hk : k ∉ items) :
    countKey l k = 0 := by
  unfold countKey
  rw [List.length_eq_zero]
  rw [List.filter_eq_nil_iff]
  intro q hq hbeq
  rw [beq_iff_eq] at hbeq
  exact hk (hbeq ▸ hall q hq)

theorem routeFrames_other (ps : Ports) (r : OpenFitResult)
    (hA : r.nod ≠ "A") (hB : r.nod ≠ "B") : routeFrames ps r = ps := by
  unfold routeFrames
  simp [hA, hB]

theorem flushPorts_other (ps : Ports) (nod : String)
    (hA : nod ≠ "A") (hB : nod ≠ "B") : flushPorts ps nod = ps := by
  unfold flushPorts
  simp [hA, hB]

theorem foldl_keep {α β : Type} (l : List β) (a : α) :
    l.foldl (fun x _ => x) a = a := by
  induction l generalizing a with
  | nil => rfl
  | cons b rest ih => simp [List.foldl, ih a]

theorem extraAttributes_other (cfg : ModuleConfig) (fitsFile : String)
    (nimages : Nat) (nod : String) (ps : Ports) (count : Nat)
    (hA : nod ≠ "A") (hB : nod ≠ "B") :
    extraAttributes cfg fitsFile nimages nod ps count
      = (ps, count + nimages, [Warning.nodNotAB]) := by
  unfold extraAttributes
  simp [hA, hB, foldl_keep]

/-- C10: a file whose composite header yields a nod value that is neither
A nor B routes its frames to no output stream, appends no INDEX or FILES
entries, and flushes nothing for that file, yet the run still emits the
bad-nod warning, still applies the same static and non-static attribute
collection to all four streams, and still advances the global frame
counter by the file's full frame count. -/
theorem nod_other_counts_but_routes_nothing (cfg : ModuleConfig)
    (total : Nat) (st : MState) (i : Nat) (f : FitsFile) (st1 : MState)
    (hA : (openFit cfg.scheme f i).nod ≠ "A")
    (hB : (openFit cfg.scheme f i).nod ≠ "B")
    (h : processFile cfg total st i f = Except.ok st1) :
    (∃ pw, staticAttributes cfg (openFit cfg.scheme f i).header f.name i
            (total - 1) st.ports = Except.ok pw
        ∧ st1.ports
            = nonStaticAttributes cfg (openFit cfg.scheme f i).header pw.1)
    ∧ (st1.ports.p1.stacked = st.ports.p1.stacked
        ∧ st1.ports.p2.stacked = st.ports.p2.stacked
        ∧ st1.ports.p3.stacked = st.ports.p3.stacked
        ∧ st1.ports.p4.stacked = st.ports.p4.stacked)
    ∧ (st1.ports.p1.flushes = st.ports.p1.flushes
        ∧ st1.ports.p2.flushes = st.ports.p2.flushes
        ∧ st1.ports.p3.flushes = st.ports.p3.flushes
        ∧ st1.ports.p4.flushes = st.ports.p4.flushes)
    ∧ (∀ k, k ∉ cfg.mNonStatic →
        countKey st1.ports.p1.appends k = countKey st.ports.p1.appends k
        ∧ countKey st1.ports.p2.appends k = countKey st.ports.p2.appends k
        ∧ countKey st1.ports.p3.appends k = countKey st.ports.p3.appends k
        ∧ countKey st1.ports.p4.appends k = countKey st.ports.p4.appends k)
    ∧ Warning.nodNotAB ∈ st1.warns
    ∧ st1.count = st.count + f.frames.length := by
  unfold processFile at h
  dsimp only at h
  rw [routeFrames_other st.ports _ hA hB] at h
  split at h
  · exact Except.noConfusion h
  · next pw heq =>
      rw [extraAttributes_other _ _ _ _ _ _ hA hB] at h
      dsimp only at h
      rw [flushPorts_other _ _ hA hB] at h
      cases h
      have hstat := staticAttributes_shape heq
      obtain ⟨l, hl, hpost⟩ :=
        nonStaticFold_shape cfg (openFit cfg.scheme f i).header
          cfg.mNonStatic pw.1
      have hna : nonStaticAttributes cfg (openFit cfg.scheme f i).header pw.1
          = { p1 := appendList pw.1.p1 l, p2 := appendList pw.1.p2 l,
              p3 := appendList pw.1.p3 l, p4 := appendList pw.1.p4 l } := hpost
      refine ⟨⟨pw, heq, rfl⟩, ?_, ?_, ?_, ?_, ?_⟩
      · rw [hna]
        simp only [appendList]
        exact ⟨hstat.1.1, hstat.2.1.1, hstat.2.2.1.1, hstat.2.2.2.1⟩
      · rw [hna]
        simp only [appendList]
        exact ⟨hstat.1.2.2.1, hstat.2.1.2.2.1, hstat.2.2.1.2.2.1,
          hstat.2.2.2.2.2.1⟩
      · intro k hk
        rw [hna]
        simp only [appendList]
        rw [hstat.1.2.1, hstat.2.1.2.1, hstat.2.2.1.2.1, hstat.2.2.2.2.1]
        rw [countKey_append, countKey_append, countKey_append, countKey_append]
        rw [countKey_zero_of_keys hl hk]
        exact ⟨rfl, rfl, rfl, rfl⟩
      · simp
      · rfl

/-- Witness for C10 at the nod-C file over the empty attribute tables. -/
theorem nod_other_counts_but_routes_nothing_witness :
    Warning.nodNotAB ∈ nodCState.warns
      ∧ nodCState.count = initState.count + 1 := by
  have h := nod_other_counts_but_routes_nothing baseCfg 1 initState 0 nodCFile
      nodCState (by decide) (by decide) (by rfl)
  exact ⟨h.2.2.2.2.1, h.2.2.2.2.2⟩

end Near
